import Mathlib

/-!
Verification development for the TradeAIAgent decision pipeline.

The Python sources (app/core/risk_manager.py, app/core/signal_generator.py,
app/core/trading_agent.py, app/core/technical_analysis.py) are embedded
shallowly: Python floats become exact rationals (ℚ), Python `round(x, n)`
becomes exact decimal round-half-to-even on ℚ, NumPy/TA-Lib NaN values become
`Option ℚ` with IEEE comparison semantics (any comparison against NaN is
false), Python strings become Lean strings, and Python `None` becomes
`Option`.  Numeric interpolation inside human-readable message strings
(`f"... {x:.2f} ..."`) is elided from the message text, since no property
depends on the digits.
-/

namespace TradeAI

/-- Does the character list `s` start with `t`? (structural helper for the
substring test). -/
def startsWithL : List Char → List Char → Bool
  | _, [] => true
  | [], _ :: _ => false
  | a :: as, b :: bs => a == b && startsWithL as bs

/-- Does some suffix of `s` start with `t`? (structural helper for the
substring test). -/
def subAt : List Char → List Char → Bool
  | s, t => startsWithL s t ||
    (match s with
     | [] => false
     | _ :: rest => subAt rest t)

/-- Python `tok in s` substring test. -/
def hasSub (s tok : String) : Bool := subAt s.data tok.data

/-- Python `s.upper()` (ASCII, as all message strings here are ASCII). -/
def upperStr (s : String) : String := ⟨s.data.map Char.toUpper⟩

/-- Python `s.lower()` (ASCII, as all message strings here are ASCII). -/
def lowerStr (s : String) : String := ⟨s.data.map Char.toLower⟩

/-- Python truthiness of an optional float: `None` and `0.0` are falsy. -/
def truthy : Option ℚ → Bool
  | none => false
  | some x => x != 0

/-- Nearest integer with ties to even, as in Python `round`. -/
def rnearest (q : ℚ) : ℤ :=
  if q - ⌊q⌋ < 1/2 then ⌊q⌋
  else if 1/2 < q - ⌊q⌋ then ⌊q⌋ + 1
  else if ⌊q⌋ % 2 = 0 then ⌊q⌋ else ⌊q⌋ + 1

/-- Python `round(q, n)`: decimal round-half-to-even, modelled exactly on ℚ. -/
def roundQ (n : ℕ) (q : ℚ) : ℚ := (rnearest (q * 10 ^ n) : ℚ) / 10 ^ n

/-! ## Risk Manager (app/core/risk_manager.py) -/

/-- Enum `StopLossMethod`. -/
inductive StopLossMethod
  | ATR_BASED
  | LEVEL_BASED
  | PERCENTAGE_BASED
deriving DecidableEq, Repr

/-- The `.value` string of each enum member. -/
def StopLossMethod.value : StopLossMethod → String
  | .ATR_BASED => "ATR"
  | .LEVEL_BASED => "LEVEL"
  | .PERCENTAGE_BASED => "PERCENTAGE"

/-- Dataclass `StopLoss`. -/
structure StopLoss where
  price : ℚ
  distance_pips : ℚ
  distance_percent : ℚ
  method : String
  invalidation_logic : String
deriving DecidableEq, Repr

/-- Dataclass `TakeProfit`. -/
structure TakeProfit where
  price : ℚ
  distance_pips : ℚ
  distance_percent : ℚ
  ratio : ℚ
  position_percentage : ℤ
deriving DecidableEq, Repr

/-- Dataclass `PositionSize`. -/
structure PositionSize where
  units : ℚ
  lot_size : ℚ
  risk_amount : ℚ
  position_value : ℚ
  leverage_required : ℚ
deriving DecidableEq, Repr

/-- Dataclass `RiskReward`. -/
structure RiskReward where
  ratio : ℚ
  risk_amount : ℚ
  profit_target : ℚ
  status : String
deriving DecidableEq, Repr

/-- The state of a `RiskManager` instance.  `open_positions` keeps the
`risk_amount` entry of each tracked position dict. -/
structure RiskManager where
  capital : ℚ
  max_risk_percent : ℚ
  max_daily_loss_percent : ℚ
  max_drawdown_percent : ℚ
  daily_losses : ℚ
  open_positions : List ℚ
deriving DecidableEq, Repr

/-- A `RiskManager()` built with the constructor defaults. -/
def RiskManager.default : RiskManager :=
  { capital := 10000
    max_risk_percent := 2
    max_daily_loss_percent := 5
    max_drawdown_percent := 15
    daily_losses := 0
    open_positions := [] }

/-- The stop price computed by `calculate_stop_loss` before the final
2-decimal rounding of the returned fields. -/
def sl_price_raw (entry_price : ℚ) (signal_type : String) (atr : ℚ)
    (support_level resistance_level : Option ℚ) (method : StopLossMethod) : ℚ :=
  match method with
  | .ATR_BASED =>
      if signal_type = "BUY" then entry_price - atr * (3/2)
      else entry_price + atr * (3/2)
  | .LEVEL_BASED =>
      if signal_type = "BUY" then
        (support_level.getD (entry_price - atr * 2)) - atr * (1/5)
      else
        (resistance_level.getD (entry_price + atr * 2)) + atr * (1/5)
  | .PERCENTAGE_BASED =>
      if signal_type = "BUY" then entry_price * (1 - 1/40)
      else entry_price * (1 + 1/40)

/-- The invalidation message of `calculate_stop_loss` (numeric interpolation
elided). -/
def sl_invalidation (signal_type : String) (method : StopLossMethod) : String :=
  match method with
  | .ATR_BASED =>
      if signal_type = "BUY" then "Price closes below (1.5x ATR)"
      else "Price closes above (1.5x ATR)"
  | .LEVEL_BASED =>
      if signal_type = "BUY" then "Price breaks below support"
      else "Price breaks above resistance"
  | .PERCENTAGE_BASED =>
      if signal_type = "BUY" then "Price drops 2.5% from entry"
      else "Price rises 2.5% from entry"

/-- Model of `RiskManager.calculate_stop_loss`. -/
def calculate_stop_loss (entry_price : ℚ) (signal_type : String) (atr : ℚ)
    (support_level resistance_level : Option ℚ) (method : StopLossMethod) : StopLoss :=
  let sl_price := sl_price_raw entry_price signal_type atr support_level resistance_level method
  let distance := |entry_price - sl_price|
  { price := roundQ 2 sl_price
    distance_pips := roundQ 2 distance
    distance_percent := roundQ 3 (distance / entry_price * 100)
    method := method.value
    invalidation_logic := sl_invalidation signal_type method }

/-- The `{"tp1": _, "tp2": _, "tp3": _}` dict returned by
`calculate_take_profits`. -/
structure TakeProfits where
  tp1 : TakeProfit
  tp2 : TakeProfit
  tp3 : TakeProfit
deriving DecidableEq, Repr

/-- Model of `RiskManager.calculate_take_profits`.  `fib_levels` is accepted and unused,
as in the source. -/
def calculate_take_profits (entry_price : ℚ) (stop_loss : StopLoss)
    (signal_type : String) (resistance_level support_level : Option ℚ)
    (_fib_levels : Option (List (String × ℚ))) : TakeProfits :=
  let risk_distance := stop_loss.distance_pips
  let tp1_price := if signal_type = "BUY" then entry_price + risk_distance
                   else entry_price - risk_distance
  let tp1 : TakeProfit :=
    { price := roundQ 2 tp1_price
      distance_pips := roundQ 2 risk_distance
      distance_percent := roundQ 3 (risk_distance / entry_price * 100)
      ratio := 1
      position_percentage := 50 }
  let tp2_price := if signal_type = "BUY" then entry_price + risk_distance * 2
                   else entry_price - risk_distance * 2
  let tp2 : TakeProfit :=
    { price := roundQ 2 tp2_price
      distance_pips := roundQ 2 (risk_distance * 2)
      distance_percent := roundQ 3 (risk_distance * 2 / entry_price * 100)
      ratio := 2
      position_percentage := 30 }
  let tp3_price :=
    if signal_type = "BUY" then
      let base := entry_price + risk_distance * 3
      let r := resistance_level.getD 0
      if truthy resistance_level && decide (r > tp2_price) && decide (r < base * (6/5))
      then r else base
    else
      let base := entry_price - risk_distance * 3
      let s := support_level.getD 0
      if truthy support_level && decide (s < tp2_price) && decide (s > base * (4/5))
      then s else base
  let tp3 : TakeProfit :=
    { price := roundQ 2 tp3_price
      distance_pips := roundQ 2 |entry_price - tp3_price|
      distance_percent := roundQ 3 (|entry_price - tp3_price| / entry_price * 100)
      ratio := roundQ 2 (|entry_price - tp3_price| / risk_distance)
      position_percentage := 20 }
  { tp1 := tp1, tp2 := tp2, tp3 := tp3 }

/-- Model of `RiskManager.calculate_risk_reward`. -/
def calculate_risk_reward (rm : RiskManager) (_entry_price : ℚ)
    (stop_loss : StopLoss) (take_profits : TakeProfits)
    (capital : Option ℚ) : RiskReward :=
  let capital := capital.getD rm.capital
  let risk_amount := capital * (rm.max_risk_percent / 100)
  let tp1 := take_profits.tp1
  let tp2 := take_profits.tp2
  let tp3 := take_profits.tp3
  let total_profit :=
    tp1.distance_pips * tp1.position_percentage / 100 +
    tp2.distance_pips * tp2.position_percentage / 100 +
    tp3.distance_pips * tp3.position_percentage / 100
  let ratio := total_profit / stop_loss.distance_pips
  let profit_target := risk_amount * ratio
  let status :=
    if ratio ≥ 5/2 then "EXCELLENT"
    else if ratio ≥ 2 then "GOOD"
    else if ratio ≥ 3/2 then "ACCEPTABLE"
    else "REJECT"
  { ratio := roundQ 2 ratio
    risk_amount := roundQ 2 risk_amount
    profit_target := roundQ 2 profit_target
    status := status }

/-- Model of `RiskManager.calculate_position_size`. -/
def calculate_position_size (rm : RiskManager) (entry_price : ℚ)
    (stop_loss : StopLoss) (capital risk_percent : Option ℚ) : PositionSize :=
  let capital := capital.getD rm.capital
  let risk_percent := risk_percent.getD rm.max_risk_percent
  let risk_amount := capital * (risk_percent / 100)
  let sl_distance := stop_loss.distance_pips
  let units := risk_amount / sl_distance
  let position_value := units * entry_price
  let lot_size := units / 100000
  let leverage_required := position_value / capital
  { units := roundQ 2 units
    lot_size := roundQ 4 lot_size
    risk_amount := roundQ 2 risk_amount
    position_value := roundQ 2 position_value
    leverage_required := roundQ 2 leverage_required }

/-- The dict returned by `check_daily_loss_limit`. -/
structure DailyCheck where
  allowed : Bool
  current_daily_loss : ℚ
  potential_loss : ℚ
  max_daily_loss : ℚ
  remaining_allowance : ℚ
  message : String
deriving DecidableEq, Repr

/-- Model of `RiskManager.check_daily_loss_limit`. -/
def check_daily_loss_limit (rm : RiskManager) (potential_loss : ℚ) : DailyCheck :=
  let max_daily_loss := rm.capital * (rm.max_daily_loss_percent / 100)
  let current_plus_potential := rm.daily_losses + potential_loss
  let allowed := decide (current_plus_potential ≤ max_daily_loss)
  let remaining := max_daily_loss - rm.daily_losses
  { allowed := allowed
    current_daily_loss := roundQ 2 rm.daily_losses
    potential_loss := roundQ 2 potential_loss
    max_daily_loss := roundQ 2 max_daily_loss
    remaining_allowance := roundQ 2 remaining
    message := if allowed then "Trade allowed" else "Daily loss limit would be exceeded" }

/-- The dict returned by `check_portfolio_risk`. -/
structure PortfolioCheck where
  position_count_ok : Bool
  current_positions : ℕ
  max_positions : ℕ
  total_risk : ℚ
  total_risk_percent : ℚ
  max_drawdown_percent : ℚ
  within_limits : Bool
  all_checks_passed : Bool
deriving DecidableEq, Repr

/-- Model of `RiskManager.check_portfolio_risk`. -/
def check_portfolio_risk (rm : RiskManager) (new_position_risk : ℚ)
    (max_open_positions : ℕ) : PortfolioCheck :=
  let current_positions := rm.open_positions.length
  let total_risk := rm.open_positions.sum + new_position_risk
  let total_risk_percent := total_risk / rm.capital * 100
  let position_count_ok := decide (current_positions < max_open_positions)
  let within_limits := decide (total_risk_percent < rm.max_drawdown_percent)
  { position_count_ok := position_count_ok
    current_positions := current_positions
    max_positions := max_open_positions
    total_risk := roundQ 2 total_risk
    total_risk_percent := roundQ 2 total_risk_percent
    max_drawdown_percent := rm.max_drawdown_percent
    within_limits := within_limits
    all_checks_passed := position_count_ok && within_limits }

/-- The `risk_checks` sub-dict of `full_risk_analysis`. -/
structure RiskChecks where
  daily_limit : DailyCheck
  portfolio_limit : PortfolioCheck
  all_passed : Bool
deriving DecidableEq, Repr

/-- The dict returned by `full_risk_analysis` (the per-target reshaping of the
take-profit dict keeps the same values, so the component records are kept). -/
structure RiskAnalysis where
  stop_loss : StopLoss
  take_profit : TakeProfits
  risk_reward : RiskReward
  position_sizing : PositionSize
  risk_checks : RiskChecks
deriving DecidableEq, Repr

/-- Model of `RiskManager.full_risk_analysis`. -/
def full_risk_analysis (rm : RiskManager) (entry_price : ℚ) (signal_type : String)
    (atr : ℚ) (support_level resistance_level : Option ℚ)
    (fib_levels : Option (List (String × ℚ))) : RiskAnalysis :=
  let sl_method :=
    if signal_type = "BUY" && truthy support_level then StopLossMethod.LEVEL_BASED
    else if signal_type = "SELL" && truthy resistance_level then StopLossMethod.LEVEL_BASED
    else StopLossMethod.ATR_BASED
  let stop_loss := calculate_stop_loss entry_price signal_type atr
    support_level resistance_level sl_method
  let take_profits := calculate_take_profits entry_price stop_loss signal_type
    resistance_level support_level fib_levels
  let risk_reward := calculate_risk_reward rm entry_price stop_loss take_profits none
  let position_size := calculate_position_size rm entry_price stop_loss none none
  let daily_check := check_daily_loss_limit rm risk_reward.risk_amount
  let portfolio_check := check_portfolio_risk rm risk_reward.risk_amount 5
  { stop_loss := stop_loss
    take_profit := take_profits
    risk_reward := risk_reward
    position_sizing := position_size
    risk_checks :=
      { daily_limit := daily_check
        portfolio_limit := portfolio_check
        all_passed := daily_check.allowed && portfolio_check.all_checks_passed } }

/-! ## Signal Generator (app/core/signal_generator.py) -/

/-- Dataclass `TradingSignal`. -/
structure TradingSignal where
  signal_type : String
  confidence : ℚ
  strength : String
  quality_score : ℚ
  confluence_count : ℕ
  entry_price : ℚ
  entry_description : String
  entry_trigger : String
  reasons : List String
  warnings : List String
deriving DecidableEq, Repr

/-- One entry of `chart_data["patterns"]`. -/
structure PatternD where
  name : String
  signal : String
deriving DecidableEq, Repr

/-- A support/resistance level dict (`{price, strength}`). -/
structure LevelD where
  price : ℚ
deriving DecidableEq, Repr

/-- The fields of the `technical_data` dict that `generate_signal`,
`validate_signal_quality` and `_create_execution_checklist` read. -/
structure TechnicalData where
  trend : String
  crossover : Option String
  rsi_value : ℚ
  rsi_signal : String
  macd_signal_type : String
  macd_interpretation : String
  bb_signal : String
  bb_interpretation : String
  adx_value : ℚ
  adx_strength : String
  adx_direction : String
  stoch_signal : String
  stoch_interpretation : String
  volume_signal : String
  fib_nearest_level : Option String
  volatility : String
deriving DecidableEq, Repr

/-- The fields of the `chart_data` dict that the core reads. -/
structure ChartData where
  patterns : List PatternD
  nearest_support : Option LevelD
  nearest_resistance : Option LevelD
deriving DecidableEq, Repr

/-- The local state of `generate_signal`: the bullish and bearish vote
accumulators and the `confluences`/`warnings` lists. -/
structure VoteState where
  bull : ℕ
  bear : ℕ
  confs : List String
  warns : List String
deriving DecidableEq, Repr

/-- Initial vote state. -/
def st0 : VoteState := ⟨0, 0, [], []⟩

/-- Trend votes (±2). -/
def stageTrend (td : TechnicalData) (s : VoteState) : VoteState :=
  if hasSub td.trend "UPTREND" then
    { s with bull := s.bull + 2, confs := s.confs ++ ["Trend: " ++ td.trend] }
  else if hasSub td.trend "DOWNTREND" then
    { s with bear := s.bear + 2, confs := s.confs ++ ["Trend: " ++ td.trend] }
  else
    { s with warns := s.warns ++ ["Market in sideways consolidation"] }

/-- MA crossover votes (±1); an absent or empty crossover string is falsy. -/
def stageCrossover (td : TechnicalData) (s : VoteState) : VoteState :=
  match td.crossover with
  | none => s
  | some c =>
      if c = "" then s
      else if hasSub c "Golden" then
        { s with bull := s.bull + 1, confs := s.confs ++ [c] }
      else if hasSub c "Death" then
        { s with bear := s.bear + 1, confs := s.confs ++ [c] }
      else s

/-- RSI votes (±1); a neutral-zone reading adds a confluence without a vote. -/
def stageRSI (td : TechnicalData) (s : VoteState) : VoteState :=
  if td.rsi_signal = "BUY" then
    { s with bull := s.bull + 1, confs := s.confs ++ ["RSI oversold"] }
  else if td.rsi_signal = "SELL" then
    { s with bear := s.bear + 1, confs := s.confs ++ ["RSI overbought"] }
  else if 40 ≤ td.rsi_value ∧ td.rsi_value ≤ 60 then
    { s with confs := s.confs ++ ["RSI neutral"] }
  else s

/-- MACD votes (±1). -/
def stageMACD (td : TechnicalData) (s : VoteState) : VoteState :=
  if td.macd_signal_type = "BUY" then
    { s with bull := s.bull + 1, confs := s.confs ++ ["MACD: " ++ td.macd_interpretation] }
  else if td.macd_signal_type = "SELL" then
    { s with bear := s.bear + 1, confs := s.confs ++ ["MACD: " ++ td.macd_interpretation] }
  else s

/-- Bollinger votes (±1), plus the squeeze warning. -/
def stageBB (td : TechnicalData) (s : VoteState) : VoteState :=
  let s :=
    if td.bb_signal = "BUY" then
      { s with bull := s.bull + 1, confs := s.confs ++ ["Price at lower Bollinger Band"] }
    else if td.bb_signal = "SELL" then
      { s with bear := s.bear + 1, confs := s.confs ++ ["Price at upper Bollinger Band"] }
    else s
  if hasSub (lowerStr td.bb_interpretation) "squeeze" then
    { s with warns := s.warns ++ ["Volatility squeeze - await breakout direction"] }
  else s

/-- ADX votes (±1 when the trend is STRONG or VERY STRONG), plus the weak-trend
warning. -/
def stageADX (td : TechnicalData) (s : VoteState) : VoteState :=
  if td.adx_strength = "STRONG" ∨ td.adx_strength = "VERY STRONG" then
    if td.adx_direction = "BULLISH" then
      { s with bull := s.bull + 1, confs := s.confs ++ ["ADX: Strong uptrend"] }
    else if td.adx_direction = "BEARISH" then
      { s with bear := s.bear + 1, confs := s.confs ++ ["ADX: Strong downtrend"] }
    else s
  else if td.adx_strength = "WEAK" then
    { s with warns := s.warns ++ ["Weak trend strength (ADX)"] }
  else s

/-- Stochastic votes (±1). -/
def stageStoch (td : TechnicalData) (s : VoteState) : VoteState :=
  if td.stoch_signal = "BUY" then
    { s with bull := s.bull + 1, confs := s.confs ++ ["Stochastic: " ++ td.stoch_interpretation] }
  else if td.stoch_signal = "SELL" then
    { s with bear := s.bear + 1, confs := s.confs ++ ["Stochastic: " ++ td.stoch_interpretation] }
  else s

/-- Volume confirmation (confluence without a vote) or low-volume warning. -/
def stageVolume (td : TechnicalData) (s : VoteState) : VoteState :=
  if td.volume_signal = "CONFIRM" then
    { s with confs := s.confs ++ ["High volume confirmation"] }
  else if td.volume_signal = "CAUTION" then
    { s with warns := s.warns ++ ["Low volume - weak confirmation"] }
  else s

/-- One chart pattern vote (±1). -/
def stagePattern (s : VoteState) (p : PatternD) : VoteState :=
  if p.signal = "BUY" then
    { s with bull := s.bull + 1, confs := s.confs ++ ["Pattern: " ++ p.name] }
  else if p.signal = "SELL" then
    { s with bear := s.bear + 1, confs := s.confs ++ ["Pattern: " ++ p.name] }
  else s

/-- All chart pattern votes. -/
def stagePatterns (cd : ChartData) (s : VoteState) : VoteState :=
  cd.patterns.foldl stagePattern s

/-- Support-proximity vote (+1 bullish within 1%). -/
def stageSupport (cd : ChartData) (current_price : ℚ) (s : VoteState) : VoteState :=
  match cd.nearest_support with
  | none => s
  | some lv =>
      if (current_price - lv.price) / current_price * 100 < 1 then
        { s with bull := s.bull + 1, confs := s.confs ++ ["Price at support level"] }
      else s

/-- Resistance-proximity vote (+1 bearish within 1%). -/
def stageResistance (cd : ChartData) (current_price : ℚ) (s : VoteState) : VoteState :=
  match cd.nearest_resistance with
  | none => s
  | some lv =>
      if (lv.price - current_price) / current_price * 100 < 1 then
        { s with bear := s.bear + 1, confs := s.confs ++ ["Price at resistance level"] }
      else s

/-- Key Fibonacci level confluence (no vote). -/
def stageFib (td : TechnicalData) (s : VoteState) : VoteState :=
  match td.fib_nearest_level with
  | none => s
  | some lvl =>
      if lvl = "38.2" ∨ lvl = "50.0" ∨ lvl = "61.8" then
        { s with confs := s.confs ++ ["Price near Fibonacci " ++ lvl ++ "%"] }
      else s

/-- High/extreme volatility warning. -/
def stageVolatility (td : TechnicalData) (s : VoteState) : VoteState :=
  if td.volatility = "HIGH" ∨ td.volatility = "EXTREME" then
    { s with warns := s.warns ++ [td.volatility ++ " volatility - wider stops recommended"] }
  else s

/-- The complete vote accumulation of `generate_signal`, in source order. -/
def accumulate (td : TechnicalData) (cd : ChartData) (current_price : ℚ) : VoteState :=
  stageVolatility td <|
  stageFib td <|
  stageResistance cd current_price <|
  stageSupport cd current_price <|
  stagePatterns cd <|
  stageVolume td <|
  stageStoch td <|
  stageADX td <|
  stageBB td <|
  stageMACD td <|
  stageRSI td <|
  stageCrossover td <|
  stageTrend td st0

/-- Model of `SignalGenerator._calculate_quality_score` (returns a Python int). -/
def calculate_quality_score (confluence_count : ℕ) (trend_strength : ℚ)
    (volume_signal : String) (pattern_count : ℕ) : ℕ :=
  let s1 := min (confluence_count * 8) 40
  let s2 : ℕ :=
    if trend_strength > 40 then 30
    else if trend_strength > 25 then 20
    else if trend_strength > 15 then 10
    else 0
  let s3 : ℕ :=
    if volume_signal = "CONFIRM" then 15
    else if volume_signal = "NEUTRAL" then 7
    else 0
  let s4 := min (pattern_count * 5) 15
  min (s1 + s2 + s3 + s4) 100

/-- Model of `SignalGenerator._create_entry_description` (numeric interpolation
elided). -/
def create_entry_description (signal_type : String)
    (top_confluences : List String) : String :=
  let parts :=
    if signal_type = "BUY" then ["Price above EMA21", "RSI:"]
    else if signal_type = "SELL" then ["Price below EMA21", "RSI:"]
    else ["No clear directional bias"]
  let parts :=
    if top_confluences.isEmpty then parts
    else parts ++ ["Confluences: " ++ String.intercalate ", " (top_confluences.take 2)]
  String.intercalate " | " parts

/-- The decision step of `generate_signal`: the signal type chosen from the
vote totals. -/
def decide_signal_type (bull bear : ℕ) : String :=
  if bull > bear then "BUY"
  else if bear > bull then "SELL"
  else "HOLD"

/-- The decision step of `generate_signal`: the (pre-rounding) confidence
computed from the vote totals and the confluence count. -/
def decide_confidence (bull bear confluence_count : ℕ) : ℚ :=
  if bull > bear then
    min 100 ((bull : ℚ) / ((max 1 bear : ℕ) : ℚ) * 30 + confluence_count * 10)
  else if bear > bull then
    min 100 ((bear : ℚ) / ((max 1 bull : ℕ) : ℚ) * 30 + confluence_count * 10)
  else 40

/-- Model of `SignalGenerator.generate_signal`. -/
def generate_signal (td : TechnicalData) (cd : ChartData)
    (current_price : ℚ) : TradingSignal :=
  let s := accumulate td cd current_price
  let confluence_count := s.confs.length
  let signal_type := decide_signal_type s.bull s.bear
  let confidence : ℚ := decide_confidence s.bull s.bear confluence_count
  let quality_score :=
    calculate_quality_score confluence_count td.adx_value td.volume_signal cd.patterns.length
  let strength :=
    if quality_score ≥ 80 then "STRONG"
    else if quality_score ≥ 60 then "MODERATE"
    else "WEAK"
  let trigger :=
    if confluence_count ≥ 4 ∧ quality_score ≥ 70 then "IMMEDIATE"
    else if confluence_count ≥ 2 then "WAIT_CONFIRMATION"
    else "PULLBACK"
  { signal_type := signal_type
    confidence := roundQ 2 confidence
    strength := strength
    quality_score := roundQ 2 (quality_score : ℚ)
    confluence_count := confluence_count
    entry_price := current_price
    entry_description := create_entry_description signal_type (s.confs.take 3)
    entry_trigger := trigger
    reasons := s.confs
    warnings := s.warns }

/-- Constructor default `self.min_confluence_for_trade = 2`. -/
def min_confluence_for_trade : ℕ := 2

/-- Constructor default `self.min_quality_score = 50`. -/
def min_quality_score : ℚ := 50

/-- Is a warning critical for `validate_signal_quality`? -/
def isCriticalWarning (w : String) : Bool :=
  hasSub (upperStr w) "EXTREME" || hasSub (upperStr w) "CAUTION"

/-- The dict returned by `validate_signal_quality`. -/
structure ValidationResult where
  passed : Bool
  quality_score : ℚ
  confluence_count : ℕ
  issues : List String
  recommendation : String
deriving DecidableEq, Repr

/-- Model of `SignalGenerator.validate_signal_quality`. -/
def validate_signal_quality (signal : TradingSignal) : ValidationResult :=
  let failConf := signal.confluence_count < min_confluence_for_trade
  let passed1 := if failConf then false else true
  let issues1 : List String := if failConf then ["Insufficient confluences"] else []
  let failQuality := signal.quality_score < min_quality_score
  let passed2 := if failQuality then false else passed1
  let issues2 := if failQuality then issues1 ++ ["Quality score too low"] else issues1
  let critical_warnings := signal.warnings.filter isCriticalWarning
  let issues3 :=
    if critical_warnings.isEmpty then issues2
    else issues2 ++ ["Critical warnings present: " ++ String.intercalate ", " critical_warnings]
  { passed := passed2
    quality_score := signal.quality_score
    confluence_count := signal.confluence_count
    issues := issues3
    recommendation := if passed2 then "TRADE" else "SKIP" }

/-! ## Orchestrator (app/core/trading_agent.py) -/

/-- The dict built by `TradingAgent._create_execution_checklist`. -/
structure Checklist where
  price_action_confirmed : Bool
  momentum_aligned : Bool
  volatility_acceptable : Bool
  trend_strength_ok : Bool
  risk_reward_positive : Bool
  risk_limits_ok : Bool
  all_ready : Bool
deriving DecidableEq, Repr

/-- Model of `TradingAgent._create_execution_checklist`. -/
def create_execution_checklist (signal : TradingSignal) (td : TechnicalData)
    (risk_data : Option RiskAnalysis) : Checklist :=
  let price_action_confirmed := decide (signal.confluence_count ≥ 2)
  let momentum_aligned :=
    (td.rsi_signal != "NEUTRAL") || (td.macd_signal_type != "NEUTRAL")
  let volatility_acceptable := td.volatility != "EXTREME"
  let trend_strength_ok := td.adx_strength != "WEAK"
  let risk_reward_positive :=
    match risk_data with
    | some rd => decide (rd.risk_reward.ratio ≥ 3/2)
    | none => false
  let risk_limits_ok :=
    match risk_data with
    | some rd => rd.risk_checks.all_passed
    | none => false
  { price_action_confirmed := price_action_confirmed
    momentum_aligned := momentum_aligned
    volatility_acceptable := volatility_acceptable
    trend_strength_ok := trend_strength_ok
    risk_reward_positive := risk_reward_positive
    risk_limits_ok := risk_limits_ok
    all_ready := price_action_confirmed && momentum_aligned &&
      volatility_acceptable && risk_reward_positive && risk_limits_ok }

/-- The record appended to `self.analysis_history` by `TradingAgent.analyze`. -/
structure AnalysisRecord where
  timestamp : String
  symbol : String
  signal : String
  confidence : ℚ
deriving DecidableEq, Repr

/-- The history update performed at the end of `TradingAgent.analyze`:
a plain unconditional `append`. -/
def analyze_history_step (history : List AnalysisRecord)
    (record : AnalysisRecord) : List AnalysisRecord :=
  history ++ [record]

/-- The history after a sequence of `analyze` calls producing the given
records, starting from the constructor state `self.analysis_history = []`. -/
def run_analyses (records : List AnalysisRecord) : List AnalysisRecord :=
  records.foldl analyze_history_step []

/-! ## Indicator Engine, moving averages (app/core/technical_analysis.py)

NumPy/TA-Lib indicator values are modelled as `Option ℚ`: `none` stands for
the NaN that TA-Lib produces while the lookback of an indicator is not yet
satisfied.  IEEE comparisons against NaN are false, which `ogt`/`olt`
reproduce. -/

/-- Last value of `talib.SMA(prices, period)`: NaN (`none`) until `period`
bars exist. -/
def sma_last (prices : List ℚ) (period : ℕ) : Option ℚ :=
  if period = 0 ∨ prices.length < period then none
  else some ((prices.drop (prices.length - period)).sum / period)

/-- One step of the EMA recurrence with smoothing `2/(period+1)`. -/
def emaStep (period : ℕ) (acc p : ℚ) : ℚ :=
  (p - acc) * (2 / ((period : ℚ) + 1)) + acc

/-- Last value of `talib.EMA(prices, period)`: seeded with the SMA of the
first `period` bars, then the EMA recurrence; NaN (`none`) until `period`
bars exist. -/
def ema_last (prices : List ℚ) (period : ℕ) : Option ℚ :=
  if period = 0 ∨ prices.length < period then none
  else some ((prices.drop period).foldl (emaStep period)
    ((prices.take period).sum / period))

/-- IEEE `>` on possibly-NaN values: false when either side is NaN. -/
def ogt : Option ℚ → Option ℚ → Bool
  | some x, some y => decide (x > y)
  | _, _ => false

/-- IEEE `<` on possibly-NaN values: false when either side is NaN. -/
def olt : Option ℚ → Option ℚ → Bool
  | some x, some y => decide (x < y)
  | _, _ => false

/-- The dict returned by `calculate_moving_averages`. -/
structure MAData where
  ema21 : Option ℚ
  sma50 : Option ℚ
  sma200 : Option ℚ
  current_price : Option ℚ
  trend : String
  signal : String
  crossover : Option String
deriving DecidableEq, Repr

/-- Model of `TechnicalAnalysis.calculate_moving_averages`, the `moving_averages`
entry of `full_analysis`. -/
def calculate_moving_averages (prices : List ℚ) : MAData :=
  let ema21 := ema_last prices 21
  let sma50 := sma_last prices 50
  let sma200 := sma_last prices 200
  let current_price := prices.getLast?
  let ts :=
    if ogt current_price ema21 && ogt ema21 sma50 && ogt sma50 sma200 then
      ("STRONG UPTREND", "BUY")
    else if olt current_price ema21 && olt ema21 sma50 && olt sma50 sma200 then
      ("STRONG DOWNTREND", "SELL")
    else if ogt current_price ema21 && ogt ema21 sma50 then
      ("UPTREND", "BUY")
    else if olt current_price ema21 && olt ema21 sma50 then
      ("DOWNTREND", "SELL")
    else ("SIDEWAYS", "NEUTRAL")
  let crossover :=
    if prices.length > 1 then
      let prev_ema := ema_last prices.dropLast 21
      let prev_sma := sma_last prices.dropLast 50
      if olt prev_ema prev_sma && ogt ema21 sma50 then
        some "Golden Cross (EMA21 > SMA50)"
      else if ogt prev_ema prev_sma && olt ema21 sma50 then
        some "Death Cross (EMA21 < SMA50)"
      else none
    else none
  { ema21 := ema21
    sma50 := sma50
    sma200 := sma200
    current_price := current_price
    trend := ts.1
    signal := ts.2
    crossover := crossover }

/-! ## Concrete fixtures -/

/-- A signal with three confluences, quality 60, and an extreme-volatility
warning (as `generate_signal` emits when ATR volatility is EXTREME). -/
def sigC1 : TradingSignal :=
  { signal_type := "BUY", confidence := 75, strength := "MODERATE"
    quality_score := 60, confluence_count := 3, entry_price := 42000
    entry_description := "", entry_trigger := "WAIT_CONFIRMATION"
    reasons := ["Trend: UPTREND", "RSI oversold", "MACD: Bullish momentum"]
    warnings := ["EXTREME volatility - wider stops recommended"] }

/-- A weak signal failing both validation thresholds. -/
def sigWeak : TradingSignal :=
  { signal_type := "HOLD", confidence := 40, strength := "WEAK"
    quality_score := 30, confluence_count := 1, entry_price := 100
    entry_description := "", entry_trigger := "PULLBACK"
    reasons := ["RSI neutral"], warnings := [] }

/-- Technical data with bullish RSI momentum but a WEAK ADX trend. -/
def tdC3 : TechnicalData :=
  { trend := "SIDEWAYS", crossover := none, rsi_value := 25, rsi_signal := "BUY"
    macd_signal_type := "NEUTRAL", macd_interpretation := "Neutral"
    bb_signal := "NEUTRAL", bb_interpretation := "Normal"
    adx_value := 10, adx_strength := "WEAK", adx_direction := "BULLISH"
    stoch_signal := "NEUTRAL", stoch_interpretation := "Neutral"
    volume_signal := "NEUTRAL", fib_nearest_level := none, volatility := "NORMAL" }

/-- A signal with exactly two confluences. -/
def sigC3 : TradingSignal :=
  { signal_type := "BUY", confidence := 60, strength := "WEAK"
    quality_score := 55, confluence_count := 2, entry_price := 42000
    entry_description := "", entry_trigger := "WAIT_CONFIRMATION"
    reasons := ["RSI oversold", "MACD: Bullish"], warnings := [] }

/-- The risk cascade of the spec scenario: entry 42000, BUY, ATR 500, no
levels, default risk manager. -/
def rdScenario : RiskAnalysis :=
  full_risk_analysis RiskManager.default 42000 "BUY" 500 none none none

/-- The scenario stop loss: entry 42000, BUY, ATR 500, ATR-based. -/
def slScenario : StopLoss :=
  calculate_stop_loss 42000 "BUY" 500 none none .ATR_BASED

/-- All-neutral technical data, producing a vote tie. -/
def tdNeutral : TechnicalData :=
  { trend := "SIDEWAYS", crossover := none, rsi_value := 50, rsi_signal := "NEUTRAL"
    macd_signal_type := "NEUTRAL", macd_interpretation := "Neutral"
    bb_signal := "NEUTRAL", bb_interpretation := "Normal"
    adx_value := 10, adx_strength := "MODERATE", adx_direction := "BULLISH"
    stoch_signal := "NEUTRAL", stoch_interpretation := "Neutral"
    volume_signal := "NEUTRAL", fib_nearest_level := none, volatility := "NORMAL" }

/-- Chart data with no patterns and no levels. -/
def cdEmpty : ChartData :=
  { patterns := [], nearest_support := none, nearest_resistance := none }

/-- A history record as built at the end of `TradingAgent.analyze`. -/
def recC9 : AnalysisRecord :=
  { timestamp := "2024-01-01T00:00:00", symbol := "BTC/USD", signal := "BUY"
    confidence := 75 }

end TradeAI

namespace TradeAI

/-! ## Rounding lemmas -/

/-- Function `rnearest` is the identity on integers. -/
theorem rnearest_intCast (m : ℤ) : rnearest (m : ℚ) = m := by
  norm_num [rnearest, Int.floor_intCast]

/-- Function `roundQ` is the identity on integers. -/
theorem roundQ_intCast (n : ℕ) (m : ℤ) : roundQ n (m : ℚ) = m := by
  have h : (m : ℚ) * 10 ^ n = ((m * 10 ^ n : ℤ) : ℚ) := by push_cast; ring
  rw [roundQ, h, rnearest_intCast]
  push_cast
  field_simp

/-- Function `roundQ` is the identity on naturals. -/
theorem roundQ_natCast (n k : ℕ) : roundQ n (k : ℚ) = k := by
  simpa using roundQ_intCast n (k : ℤ)

/-- On every vote/confluence combination that `generate_signal` can actually
reach (`W + L ≤ c + 1`), the 2-decimal rounding of the confidence is exact:
the value is either capped at 100 or an integer. -/
theorem conf_round_exact (W L c : ℕ) (hWL : L < W) (hsum : W + L ≤ c + 1) :
    roundQ 2 (min 100 ((W : ℚ) / ((max 1 L : ℕ) : ℚ) * 30 + (c : ℚ) * 10)) =
      min 100 ((W : ℚ) / ((max 1 L : ℕ) : ℚ) * 30 + (c : ℚ) * 10) := by
  set x : ℚ := (W : ℚ) / ((max 1 L : ℕ) : ℚ) * 30 + (c : ℚ) * 10 with hxdef
  rcases le_or_lt (100 : ℚ) x with h100 | h100
  · rw [min_eq_left h100]
    simpa using roundQ_intCast 2 100
  · rw [min_eq_right h100.le]
    have hL3 : L ≤ 3 := by
      by_contra hL
      push_neg at hL
      have hW5 : 5 ≤ W := by omega
      have hc8 : 8 ≤ c := by omega
      have hmaxL : (max 1 L) = L := by omega
      have hLpos : (0 : ℚ) < ((max 1 L : ℕ) : ℚ) := by
        have : 1 ≤ max 1 L := le_max_left 1 L
        exact_mod_cast Nat.lt_of_lt_of_le Nat.zero_lt_one this
      have hdiv : (1 : ℚ) < (W : ℚ) / ((max 1 L : ℕ) : ℚ) := by
        rw [lt_div_iff₀ hLpos, one_mul]
        exact_mod_cast by omega
      have hcq : (80 : ℚ) ≤ (c : ℚ) * 10 := by
        have : (8 : ℚ) ≤ (c : ℚ) := by exact_mod_cast hc8
        linarith
      have : (100 : ℚ) ≤ x := by
        rw [hxdef]
        nlinarith
      linarith
    interval_cases L
    · have hx1 : x = ((W * 30 + c * 10 : ℕ) : ℚ) := by
        rw [hxdef]
        push_cast
        norm_num
        try ring
      rw [hx1, roundQ_natCast]
    · have hx1 : x = ((W * 30 + c * 10 : ℕ) : ℚ) := by
        rw [hxdef]
        push_cast
        norm_num
        try ring
      rw [hx1, roundQ_natCast]
    · have hx1 : x = ((W * 15 + c * 10 : ℕ) : ℚ) := by
        rw [hxdef]
        push_cast
        norm_num
        try ring
      rw [hx1, roundQ_natCast]
    · have hx1 : x = ((W * 10 + c * 10 : ℕ) : ℚ) := by
        rw [hxdef]
        push_cast
        norm_num
        try ring
      rw [hx1, roundQ_natCast]

/-! ## Claim C5: daily loss gate scenario -/

/-- C5 counterexample: with capital 10000, max daily loss 5 % and zero daily
losses, `check_daily_loss_limit(200)` does NOT return a remaining allowance of
300 as the claim states: the code computes `max_daily_loss - daily_losses`,
ignoring the potential loss, so it returns 500. -/
theorem C5_counterexample :
    ¬ ((check_daily_loss_limit RiskManager.default 200).allowed = true ∧
       (check_daily_loss_limit RiskManager.default 200).remaining_allowance = 300) := by
  intro h
  have h2 := h.2
  norm_num [check_daily_loss_limit, RiskManager.default, roundQ, rnearest] at h2

/-- C5 (amended): with capital 10000, max daily loss 5 % and zero daily
losses, `check_daily_loss_limit(200)` returns `allowed = true`, a maximum
daily loss of 500, and a remaining allowance of 500 (the limit minus the
already-recorded daily losses; the potential loss is not subtracted). -/
theorem C5_daily_loss_scenario :
    (check_daily_loss_limit RiskManager.default 200).allowed = true ∧
    (check_daily_loss_limit RiskManager.default 200).max_daily_loss = 500 ∧
    (check_daily_loss_limit RiskManager.default 200).remaining_allowance = 500 := by
  refine ⟨?_, ?_, ?_⟩ <;>
    norm_num [check_daily_loss_limit, RiskManager.default, roundQ, rnearest]

/-! ## Claim C6: take-profit invariants -/

/-- C6: for every entry price, stop loss, direction and optional levels,
`calculate_take_profits` returns three legs whose position percentages sum to
100, with `tp1.ratio` exactly 1.0 and `tp2.ratio` exactly 2.0. -/
theorem C6_take_profit_invariants (entry : ℚ) (sl : StopLoss) (st : String)
    (res sup : Option ℚ) (fib : Option (List (String × ℚ))) :
    (calculate_take_profits entry sl st res sup fib).tp1.ratio = 1 ∧
    (calculate_take_profits entry sl st res sup fib).tp2.ratio = 2 ∧
    (calculate_take_profits entry sl st res sup fib).tp1.position_percentage +
      (calculate_take_profits entry sl st res sup fib).tp2.position_percentage +
      (calculate_take_profits entry sl st res sup fib).tp3.position_percentage = 100 :=
  ⟨rfl, rfl, rfl⟩

/-! ## Claim C8: position size scenario -/

/-- C8 counterexample: with capital 10000, risk 2 % and the scenario stop
(distance 750), the REPORTED `lot_size` is not approximately 0.0000027: the
code rounds `units / 100000` to 4 decimal places, so the returned field is
exactly 0. -/
theorem C8_counterexample :
    ¬ ((calculate_position_size RiskManager.default 42000 slScenario none none).risk_amount = 200 ∧
       |(calculate_position_size RiskManager.default 42000 slScenario none none).units -
          2667/10000| ≤ 2667/100000 ∧
       |(calculate_position_size RiskManager.default 42000 slScenario none none).lot_size -
          27/10000000| ≤ 27/100000000) := by
  intro h
  have hlot : (calculate_position_size RiskManager.default 42000 slScenario none none).lot_size = 0 := by
    norm_num [calculate_position_size, RiskManager.default, slScenario,
      calculate_stop_loss, sl_price_raw, roundQ, rnearest]
  have h3 := h.2.2
  rw [hlot, zero_sub, abs_neg, abs_le] at h3
  norm_num at h3

/-- C8 (amended): the scenario returns `risk_amount = 200`; the exact units
are `200/750 = 4/15 ≈ 0.2667`, reported as 0.27 after 2-decimal rounding; the
exact lot size is `units/100000 = 1/375000 ≈ 0.0000027`, but the reported
`lot_size` is 0.0 because the code rounds it to 4 decimal places. -/
theorem C8_position_size_scenario :
    (calculate_position_size RiskManager.default 42000 slScenario none none).risk_amount = 200 ∧
    (calculate_position_size RiskManager.default 42000 slScenario none none).units = 27/100 ∧
    (calculate_position_size RiskManager.default 42000 slScenario none none).lot_size = 0 ∧
    (calculate_position_size RiskManager.default 42000 slScenario none none).position_value = 11200 ∧
    |(4 : ℚ)/15 - 2667/10000| < 1/10000 ∧
    |(4 : ℚ)/15/100000 - 27/10000000| < 1/10000000 := by
  refine ⟨?_, ?_, ?_, ?_,
    by rw [abs_lt]; constructor <;> norm_num,
    by rw [abs_lt]; constructor <;> norm_num⟩ <;>
    norm_num [calculate_position_size, RiskManager.default, slScenario,
      calculate_stop_loss, sl_price_raw, roundQ, rnearest]

/-! ## Claim C9: analysis history growth -/

/-- The history append of `analyze` grows the log by exactly one record per
call. -/
theorem foldl_history_length (records : List AnalysisRecord) :
    ∀ init : List AnalysisRecord,
      (records.foldl analyze_history_step init).length = init.length + records.length := by
  induction records with
  | nil => intro init; simp
  | cons r rs ih =>
      intro init
      simp only [List.foldl_cons, ih, analyze_history_step, List.length_append,
        List.length_cons, List.length_nil]
      omega

/-- After any sequence of `analyze` calls the history holds one record per
call. -/
theorem run_analyses_length (records : List AnalysisRecord) :
    (run_analyses records).length = records.length := by
  simpa [run_analyses] using foldl_history_length records []

/-- C9: the analysis history has NO bounded capacity: `analyze` appends
unconditionally, so for every proposed bound `B` a sequence of `B + 1` calls
makes `analysis_history` longer than `B`. -/
theorem C9_history_unbounded (B : ℕ) :
    B < (run_analyses (List.replicate (B + 1) recC9)).length := by
  rw [run_analyses_length, List.length_replicate]
  omega

/-! ## Claim C10: boundary semantics of the two risk gates -/

/-- C10: `check_daily_loss_limit` is non-strict at its boundary (a potential
loss landing exactly on the daily limit is allowed), while
`check_portfolio_risk` is strict at both of its boundaries (a position count
equal to `max_open_positions` fails the count check, and an aggregate risk
percentage exactly equal to `max_drawdown_percent` fails the drawdown
check). -/
theorem C10_boundary_semantics :
    (∀ (rm : RiskManager) (pl : ℚ),
        rm.daily_losses + pl = rm.capital * (rm.max_daily_loss_percent / 100) →
        (check_daily_loss_limit rm pl).allowed = true) ∧
    (∀ (rm : RiskManager) (npr : ℚ) (mop : ℕ),
        rm.open_positions.length = mop →
        (check_portfolio_risk rm npr mop).position_count_ok = false) ∧
    (∀ (rm : RiskManager) (npr : ℚ) (mop : ℕ),
        (rm.open_positions.sum + npr) / rm.capital * 100 = rm.max_drawdown_percent →
        (check_portfolio_risk rm npr mop).within_limits = false) := by
  refine ⟨?_, ?_, ?_⟩
  · intro rm pl h
    simp [check_daily_loss_limit, h]
  · intro rm npr mop h
    simp [check_portfolio_risk, h]
  · intro rm npr mop h
    simp [check_portfolio_risk, h]

/-- C10 witness: with the default risk manager, a potential loss of exactly
500 (= 10000 × 5 %) is allowed; with `max_open_positions = 0` the count check
fails at equality; a new-position risk of 1500 (aggregate exactly 15 %) fails
the drawdown check. -/
theorem C10_boundary_semantics_witness :
    (check_daily_loss_limit RiskManager.default 500).allowed = true ∧
    (check_portfolio_risk RiskManager.default 1 0).position_count_ok = false ∧
    (check_portfolio_risk RiskManager.default 1500 5).within_limits = false := by
  refine ⟨C10_boundary_semantics.1 RiskManager.default 500 (by norm_num [RiskManager.default]),
    C10_boundary_semantics.2.1 RiskManager.default 1 0 (by simp [RiskManager.default]),
    C10_boundary_semantics.2.2 RiskManager.default 1500 5 (by norm_num [RiskManager.default])⟩

/-! ## Claim C1: validation gate -/

/-- The `passed` flag of `validate_signal_quality` depends only on the two
threshold checks; the critical-warning scan never clears it. -/
theorem validate_passed_eq (signal : TradingSignal) :
    (validate_signal_quality signal).passed =
      (decide (min_confluence_for_trade ≤ signal.confluence_count) &&
        decide (min_quality_score ≤ signal.quality_score)) := by
  unfold validate_signal_quality
  by_cases hq : signal.quality_score < min_quality_score <;>
    by_cases hc : signal.confluence_count < min_confluence_for_trade
  · simp [hq, hc, not_le.mpr hq, not_le.mpr hc]
  · simp [hq, hc, not_le.mpr hq]
  · simp [hq, hc, not_le.mpr hc, le_of_not_lt hq]
  · simp [hq, hc, le_of_not_lt hq, le_of_not_lt hc]

/-- When the validation gate fails, it always itemizes at least one issue. -/
theorem validate_issues_ne (signal : TradingSignal) :
    (validate_signal_quality signal).passed = false →
    (validate_signal_quality signal).issues ≠ [] := by
  unfold validate_signal_quality
  by_cases hq : signal.quality_score < min_quality_score <;>
    by_cases hc : signal.confluence_count < min_confluence_for_trade <;>
      simp [hq, hc] <;> split <;> simp

/-- C1 counterexample: a signal with 3 confluences, quality 60 and an
"EXTREME volatility" warning PASSES `validate_signal_quality`, contradicting
the claim that a critical warning fails the gate: the source appends the
critical warnings to `issues` without clearing `passed`. -/
theorem C1_counterexample :
    ¬ (((validate_signal_quality sigC1).passed = true) ↔
       (2 ≤ sigC1.confluence_count ∧ (50 : ℚ) ≤ sigC1.quality_score ∧
        ∀ w ∈ sigC1.warnings, isCriticalWarning w = false)) := by
  decide

/-- C1 (amended): `validate_signal_quality` passes iff
`confluence_count ≥ 2` and `quality_score ≥ 50`; warnings containing
"EXTREME" or "CAUTION" (case-insensitive) are itemized in `issues` but do not
affect `passed`; the function is total, and every failure itemizes at least
one issue. -/
theorem C1_validation_gate (signal : TradingSignal) :
    ((validate_signal_quality signal).passed = true ↔
      (min_confluence_for_trade ≤ signal.confluence_count ∧
        min_quality_score ≤ signal.quality_score)) ∧
    ((validate_signal_quality signal).passed = false →
      (validate_signal_quality signal).issues ≠ []) := by
  constructor
  · rw [validate_passed_eq]
    simp [Bool.and_eq_true, decide_eq_true_eq]
  · exact validate_issues_ne signal

/-- C1 witness: a signal with one confluence and quality 30 fails the gate
with a non-empty issue list. -/
theorem C1_validation_gate_witness :
    (validate_signal_quality sigWeak).passed = false ∧
    (validate_signal_quality sigWeak).issues ≠ [] :=
  ⟨by decide, (C1_validation_gate sigWeak).2 (by decide)⟩

/-! ## Claim C2: stop-loss invariant -/

/-- C2 counterexample: a LEVEL-based BUY stop computed from a support level
ABOVE the entry (support 110, entry 100, ATR 1) lands at 109.8, which is not
below the entry: the source never checks that the level is on the protective
side. -/
theorem C2_counterexample :
    ¬ ((calculate_stop_loss 100 "BUY" 1 (some 110) none
        StopLossMethod.LEVEL_BASED).price < 100) := by
  have hp : (calculate_stop_loss 100 "BUY" 1 (some 110) none
      StopLossMethod.LEVEL_BASED).price = 549/5 := by
    norm_num [calculate_stop_loss, sl_price_raw, roundQ, rnearest]
  rw [hp]
  norm_num

/-- C2 (amended): for every entry > 0, ATR > 0 and method, provided any
support level supplied to a LEVEL-based BUY stop lies below the entry and any
resistance level supplied to a LEVEL-based SELL stop lies above it, the exact
(pre-rounding) stop price is strictly below the entry for BUY and strictly
above it for SELL, and the exact stop distance is strictly positive; the
reported `price` and `distance_pips` are these exact values rounded to two
decimals. -/
theorem C2_stop_loss_protective (entry atr : ℚ) (sup res : Option ℚ)
    (method : StopLossMethod) (st : String)
    (hentry : 0 < entry) (hatr : 0 < atr)
    (hsup : method = StopLossMethod.LEVEL_BASED → st = "BUY" →
      ∀ s, sup = some s → s < entry)
    (hres : method = StopLossMethod.LEVEL_BASED → st = "SELL" →
      ∀ r, res = some r → entry < r) :
    (st = "BUY" → sl_price_raw entry st atr sup res method < entry) ∧
    (st = "SELL" → entry < sl_price_raw entry st atr sup res method) ∧
    (st = "BUY" ∨ st = "SELL" →
      0 < |entry - sl_price_raw entry st atr sup res method|) ∧
    (calculate_stop_loss entry st atr sup res method).price =
      roundQ 2 (sl_price_raw entry st atr sup res method) ∧
    (calculate_stop_loss entry st atr sup res method).distance_pips =
      roundQ 2 |entry - sl_price_raw entry st atr sup res method| := by
  have hbuy : st = "BUY" → sl_price_raw entry st atr sup res method < entry := by
    intro hb
    subst hb
    cases method with
    | ATR_BASED =>
        simp only [sl_price_raw]
        norm_num
        all_goals linarith
    | LEVEL_BASED =>
        rcases hs : sup with _ | s
        · simp only [sl_price_raw, hs, Option.getD_none]
          norm_num
          all_goals linarith
        · have hlt := hsup rfl rfl s hs
          simp only [sl_price_raw, hs, Option.getD_some]
          norm_num
          all_goals linarith
    | PERCENTAGE_BASED =>
        simp only [sl_price_raw]
        norm_num
        all_goals nlinarith
  have hsell : st = "SELL" → entry < sl_price_raw entry st atr sup res method := by
    intro hb
    subst hb
    cases method with
    | ATR_BASED =>
        simp only [sl_price_raw]
        rw [if_neg (show ¬("SELL" : String) = "BUY" by decide)]
        linarith
    | LEVEL_BASED =>
        rcases hs : res with _ | r
        · simp only [sl_price_raw, hs, Option.getD_none]
          rw [if_neg (show ¬("SELL" : String) = "BUY" by decide)]
          linarith
        · have hlt := hres rfl rfl r hs
          simp only [sl_price_raw, hs, Option.getD_some]
          rw [if_neg (show ¬("SELL" : String) = "BUY" by decide)]
          linarith
    | PERCENTAGE_BASED =>
        simp only [sl_price_raw]
        rw [if_neg (show ¬("SELL" : String) = "BUY" by decide)]
        nlinarith
  refine ⟨hbuy, hsell, ?_, rfl, rfl⟩
  intro hd
  rw [abs_pos, sub_ne_zero]
  rcases hd with hb | hs
  · exact ne_of_gt (hbuy hb)
  · exact ne_of_lt (hsell hs)

/-- C2 witness: the ATR-based BUY stop at entry 100, ATR 1 sits strictly
below the entry. -/
theorem C2_stop_loss_protective_witness :
    (0 : ℚ) < 100 ∧ (0 : ℚ) < 1 ∧
    sl_price_raw 100 "BUY" 1 none none StopLossMethod.ATR_BASED < 100 := by
  refine ⟨by norm_num, by norm_num, ?_⟩
  exact (C2_stop_loss_protective 100 1 none none StopLossMethod.ATR_BASED "BUY"
    (by norm_num) (by norm_num)
    (by intro hm; cases hm) (by intro hm; cases hm)).1 rfl

/-! ## Claim C3: execution checklist -/

/-- The scenario risk/reward ratio: weighted profit 1275 over stop distance
750 gives 1.7. -/
theorem rdScenario_ratio : rdScenario.risk_reward.ratio = 17/10 := by
  norm_num [rdScenario, full_risk_analysis, calculate_stop_loss, sl_price_raw,
    calculate_take_profits, calculate_risk_reward, RiskManager.default, truthy,
    roundQ, rnearest]

/-- The scenario risk checks all pass (risk 200 against limit 500, zero open
positions, 2 % aggregate risk against a 15 % ceiling). -/
theorem rdScenario_all_passed : rdScenario.risk_checks.all_passed = true := by
  norm_num [rdScenario, full_risk_analysis, calculate_stop_loss, sl_price_raw,
    calculate_take_profits, calculate_risk_reward, check_daily_loss_limit,
    check_portfolio_risk, RiskManager.default, truthy, roundQ, rnearest,
    Bool.and_eq_true, decide_eq_true_eq]

/-- C3 counterexample: with two confluences, bullish RSI momentum, NORMAL
volatility, WEAK ADX strength and a passing risk cascade, `all_ready` is true
even though `trend_strength_ok` is false: the source omits
`trend_strength_ok` from the `all_ready` conjunction. -/
theorem C3_counterexample :
    ¬ ((create_execution_checklist sigC3 tdC3 (some rdScenario)).all_ready =
       ((create_execution_checklist sigC3 tdC3 (some rdScenario)).price_action_confirmed &&
        (create_execution_checklist sigC3 tdC3 (some rdScenario)).momentum_aligned &&
        (create_execution_checklist sigC3 tdC3 (some rdScenario)).volatility_acceptable &&
        (create_execution_checklist sigC3 tdC3 (some rdScenario)).trend_strength_ok &&
        (create_execution_checklist sigC3 tdC3 (some rdScenario)).risk_reward_positive &&
        (create_execution_checklist sigC3 tdC3 (some rdScenario)).risk_limits_ok)) := by
  intro h
  have htr : (create_execution_checklist sigC3 tdC3 (some rdScenario)).trend_strength_ok
      = false := by decide
  have hall : (create_execution_checklist sigC3 tdC3 (some rdScenario)).all_ready
      = true := by
    simp only [create_execution_checklist, sigC3, tdC3, rdScenario_ratio,
      rdScenario_all_passed]
    norm_num [Bool.and_eq_true, decide_eq_true_eq]
    decide
  rw [hall, htr] at h
  simp at h

/-- C3 (amended): `all_ready` is the conjunction of five of the six checks:
price action (confluence ≥ 2), momentum, volatility, risk/reward and risk
limits; the `trend_strength_ok` check (ADX not WEAK) is computed and reported
but omitted from the conjunction. -/
theorem C3_all_ready_conjunction (signal : TradingSignal) (td : TechnicalData)
    (rd : Option RiskAnalysis) :
    (create_execution_checklist signal td rd).all_ready =
      ((create_execution_checklist signal td rd).price_action_confirmed &&
       (create_execution_checklist signal td rd).momentum_aligned &&
       (create_execution_checklist signal td rd).volatility_acceptable &&
       (create_execution_checklist signal td rd).risk_reward_positive &&
       (create_execution_checklist signal td rd).risk_limits_ok) := rfl

/-! ## Claim C4: degradation on short series -/

/-- Function `talib.SMA` reports NaN when the series is shorter than the period. -/
theorem sma_last_short (prices : List ℚ) (period : ℕ)
    (h : prices.length < period) : sma_last prices period = none := by
  unfold sma_last
  rw [if_pos (Or.inr h)]

/-- SMA of a constant series is that constant once the period is covered. -/
theorem sma_last_replicate (n period : ℕ) (h0 : 0 < period) (h : period ≤ n)
    (x : ℚ) : sma_last (List.replicate n x) period = some x := by
  unfold sma_last
  rw [if_neg (by simp only [List.length_replicate]; omega)]
  simp only [List.length_replicate, List.drop_replicate, List.sum_replicate,
    nsmul_eq_mul]
  have hh : n - (n - period) = period := by omega
  rw [hh]
  have hper : ((period : ℕ) : ℚ) ≠ 0 := by positivity
  rw [mul_div_cancel_left₀ x hper]

/-- The EMA recurrence is stationary on a constant series. -/
theorem foldl_emaStep_replicate (period m : ℕ) (x : ℚ) :
    (List.replicate m x).foldl (emaStep period) x = x := by
  induction m with
  | zero => rfl
  | succ k ih =>
      rw [List.replicate_succ, List.foldl_cons]
      have hx : emaStep period x x = x := by unfold emaStep; ring
      rw [hx, ih]

/-- EMA of a constant series is that constant once the period is covered. -/
theorem ema_last_replicate (n period : ℕ) (h0 : 0 < period) (h : period ≤ n)
    (x : ℚ) : ema_last (List.replicate n x) period = some x := by
  unfold ema_last
  rw [if_neg (by simp only [List.length_replicate]; omega)]
  simp only [List.take_replicate, List.drop_replicate, List.sum_replicate,
    nsmul_eq_mul]
  have hmin : min period n = period := by omega
  rw [hmin]
  have hper : ((period : ℕ) : ℚ) ≠ 0 := by positivity
  rw [mul_div_cancel_left₀ x hper, foldl_emaStep_replicate]

/-- Full evaluation of `calculate_moving_averages` on a 60-bar constant
series: SMA200 is NaN and the trend silently degrades to SIDEWAYS. -/
theorem ma_replicate60 :
    calculate_moving_averages (List.replicate 60 (100 : ℚ)) =
      { ema21 := some 100, sma50 := some 100, sma200 := none
        current_price := some 100, trend := "SIDEWAYS", signal := "NEUTRAL"
        crossover := none } := by
  have he : ema_last (List.replicate 60 (100 : ℚ)) 21 = some 100 :=
    ema_last_replicate 60 21 (by norm_num) (by norm_num) 100
  have hs50 : sma_last (List.replicate 60 (100 : ℚ)) 50 = some 100 :=
    sma_last_replicate 60 50 (by norm_num) (by norm_num) 100
  have hs200 : sma_last (List.replicate 60 (100 : ℚ)) 200 = none :=
    sma_last_short _ _ (by simp)
  have hdl : (List.replicate 60 (100 : ℚ)).dropLast = List.replicate 59 (100 : ℚ) := by
    rw [show (60 : ℕ) = 59 + 1 from rfl, List.replicate_succ', List.dropLast_concat]
  have hpe : ema_last ((List.replicate 60 (100 : ℚ)).dropLast) 21 = some 100 := by
    rw [hdl]
    exact ema_last_replicate 59 21 (by norm_num) (by norm_num) 100
  have hps : sma_last ((List.replicate 60 (100 : ℚ)).dropLast) 50 = some 100 := by
    rw [hdl]
    exact sma_last_replicate 59 50 (by norm_num) (by norm_num) 100
  have hlast : (List.replicate 60 (100 : ℚ)).getLast? = some 100 := by
    rw [show (60 : ℕ) = 59 + 1 from rfl, List.replicate_succ', List.getLast?_concat]
  simp only [calculate_moving_averages, he, hs50, hs200, hpe, hps, hlast,
    List.length_replicate]
  norm_num [ogt, olt]

/-- C4 (code evaluation at the failing input): on a 60-bar series (enough for
EMA21 and SMA50, short of SMA200), `full_analysis`'s moving-average entry
returns without raising, with SMA200 equal to NaN (`none`), the trend
silently classified SIDEWAYS, and no field reporting the indicator as
unavailable. -/
theorem C4_short_series_eval :
    (calculate_moving_averages (List.replicate 60 (100 : ℚ))).sma200 = none ∧
    (calculate_moving_averages (List.replicate 60 (100 : ℚ))).ema21 = some 100 ∧
    (calculate_moving_averages (List.replicate 60 (100 : ℚ))).sma50 = some 100 ∧
    (calculate_moving_averages (List.replicate 60 (100 : ℚ))).trend = "SIDEWAYS" ∧
    (calculate_moving_averages (List.replicate 60 (100 : ℚ))).signal = "NEUTRAL" ∧
    hasSub (upperStr (calculate_moving_averages (List.replicate 60 (100 : ℚ))).trend)
      "UNAVAILABLE" = false ∧
    hasSub (upperStr (calculate_moving_averages (List.replicate 60 (100 : ℚ))).signal)
      "UNAVAILABLE" = false := by
  refine ⟨?_, ?_, ?_, ?_, ?_, ?_, ?_⟩ <;> rw [ma_replicate60] <;> first | rfl | decide

/-! ## Claim C7: confidence formula -/

/-- Each vote stage adds at most as many votes as confluence entries, except
the trend stage which may add one extra vote; a stage with that bound
preserves `votes ≤ confluences + 1`. -/
theorem stage_preserves (f : VoteState → VoteState)
    (hf : ∀ s, (f s).bull + (f s).bear + s.confs.length ≤
      s.bull + s.bear + (f s).confs.length)
    (s : VoteState) (h : s.bull + s.bear ≤ s.confs.length + 1) :
    (f s).bull + (f s).bear ≤ (f s).confs.length + 1 := by
  have := hf s
  omega

/-- Vote/confluence bound for the trend stage (two votes, one confluence). -/
theorem stageTrend_votes (td : TechnicalData) (s : VoteState) :
    (stageTrend td s).bull + (stageTrend td s).bear + s.confs.length ≤
      s.bull + s.bear + (stageTrend td s).confs.length + 1 := by
  unfold stageTrend
  split_ifs <;> simp <;> omega

/-- Vote/confluence bound for the crossover stage. -/
theorem stageCrossover_votes (td : TechnicalData) (s : VoteState) :
    (stageCrossover td s).bull + (stageCrossover td s).bear + s.confs.length ≤
      s.bull + s.bear + (stageCrossover td s).confs.length := by
  unfold stageCrossover
  cases h : td.crossover <;> simp only [h]
  · omega
  · split_ifs <;> simp <;> omega

/-- Vote/confluence bound for the RSI stage. -/
theorem stageRSI_votes (td : TechnicalData) (s : VoteState) :
    (stageRSI td s).bull + (stageRSI td s).bear + s.confs.length ≤
      s.bull + s.bear + (stageRSI td s).confs.length := by
  unfold stageRSI
  split_ifs <;> simp <;> omega

/-- Vote/confluence bound for the MACD stage. -/
theorem stageMACD_votes (td : TechnicalData) (s : VoteState) :
    (stageMACD td s).bull + (stageMACD td s).bear + s.confs.length ≤
      s.bull + s.bear + (stageMACD td s).confs.length := by
  unfold stageMACD
  split_ifs <;> simp <;> omega

/-- Vote/confluence bound for the Bollinger stage. -/
theorem stageBB_votes (td : TechnicalData) (s : VoteState) :
    (stageBB td s).bull + (stageBB td s).bear + s.confs.length ≤
      s.bull + s.bear + (stageBB td s).confs.length := by
  unfold stageBB
  split_ifs <;> simp <;> omega

/-- Vote/confluence bound for the ADX stage. -/
theorem stageADX_votes (td : TechnicalData) (s : VoteState) :
    (stageADX td s).bull + (stageADX td s).bear + s.confs.length ≤
      s.bull + s.bear + (stageADX td s).confs.length := by
  unfold stageADX
  split_ifs <;> simp <;> omega

/-- Vote/confluence bound for the stochastic stage. -/
theorem stageStoch_votes (td : TechnicalData) (s : VoteState) :
    (stageStoch td s).bull + (stageStoch td s).bear + s.confs.length ≤
      s.bull + s.bear + (stageStoch td s).confs.length := by
  unfold stageStoch
  split_ifs <;> simp <;> omega

/-- Vote/confluence bound for the volume stage. -/
theorem stageVolume_votes (td : TechnicalData) (s : VoteState) :
    (stageVolume td s).bull + (stageVolume td s).bear + s.confs.length ≤
      s.bull + s.bear + (stageVolume td s).confs.length := by
  unfold stageVolume
  split_ifs <;> simp <;> omega

/-- Vote/confluence bound for a single pattern vote. -/
theorem stagePattern_votes (s : VoteState) (p : PatternD) :
    (stagePattern s p).bull + (stagePattern s p).bear + s.confs.length ≤
      s.bull + s.bear + (stagePattern s p).confs.length := by
  unfold stagePattern
  split_ifs <;> simp <;> omega

/-- Vote/confluence bound for the whole pattern loop. -/
theorem stagePatterns_votes (cd : ChartData) (s : VoteState) :
    (stagePatterns cd s).bull + (stagePatterns cd s).bear + s.confs.length ≤
      s.bull + s.bear + (stagePatterns cd s).confs.length := by
  unfold stagePatterns
  generalize cd.patterns = ps
  induction ps generalizing s with
  | nil => simp
  | cons p ps ih =>
      simp only [List.foldl_cons]
      have h1 := stagePattern_votes s p
      have h2 := ih (stagePattern s p)
      omega

/-- Vote/confluence bound for the support-proximity stage. -/
theorem stageSupport_votes (cd : ChartData) (p : ℚ) (s : VoteState) :
    (stageSupport cd p s).bull + (stageSupport cd p s).bear + s.confs.length ≤
      s.bull + s.bear + (stageSupport cd p s).confs.length := by
  unfold stageSupport
  cases h : cd.nearest_support <;> simp only [h]
  · omega
  · split_ifs <;> simp <;> omega

/-- Vote/confluence bound for the resistance-proximity stage. -/
theorem stageResistance_votes (cd : ChartData) (p : ℚ) (s : VoteState) :
    (stageResistance cd p s).bull + (stageResistance cd p s).bear + s.confs.length ≤
      s.bull + s.bear + (stageResistance cd p s).confs.length := by
  unfold stageResistance
  cases h : cd.nearest_resistance <;> simp only [h]
  · omega
  · split_ifs <;> simp <;> omega

/-- Vote/confluence bound for the Fibonacci stage. -/
theorem stageFib_votes (td : TechnicalData) (s : VoteState) :
    (stageFib td s).bull + (stageFib td s).bear + s.confs.length ≤
      s.bull + s.bear + (stageFib td s).confs.length := by
  unfold stageFib
  cases h : td.fib_nearest_level <;> simp only [h]
  · omega
  · split_ifs <;> simp <;> omega

/-- Vote/confluence bound for the volatility stage. -/
theorem stageVolatility_votes (td : TechnicalData) (s : VoteState) :
    (stageVolatility td s).bull + (stageVolatility td s).bear + s.confs.length ≤
      s.bull + s.bear + (stageVolatility td s).confs.length := by
  unfold stageVolatility
  split_ifs <;> simp <;> omega

/-- Every reachable vote state satisfies `votes ≤ confluences + 1`: each vote
is recorded as a confluence reason, except that the trend contributes two
votes for one reason. -/
theorem accumulate_votes (td : TechnicalData) (cd : ChartData) (p : ℚ) :
    (accumulate td cd p).bull + (accumulate td cd p).bear ≤
      (accumulate td cd p).confs.length + 1 := by
  unfold accumulate
  apply stage_preserves _ (stageVolatility_votes td)
  apply stage_preserves _ (stageFib_votes td)
  apply stage_preserves _ (stageResistance_votes cd p)
  apply stage_preserves _ (stageSupport_votes cd p)
  apply stage_preserves _ (stagePatterns_votes cd)
  apply stage_preserves _ (stageVolume_votes td)
  apply stage_preserves _ (stageStoch_votes td)
  apply stage_preserves _ (stageADX_votes td)
  apply stage_preserves _ (stageBB_votes td)
  apply stage_preserves _ (stageMACD_votes td)
  apply stage_preserves _ (stageRSI_votes td)
  apply stage_preserves _ (stageCrossover_votes td)
  have h := stageTrend_votes td st0
  have h0a : st0.bull = 0 := rfl
  have h0b : st0.bear = 0 := rfl
  have h0c : st0.confs.length = 0 := rfl
  omega

/-- C7: for every generated signal, when the bullish and bearish vote totals
differ the reported confidence equals
`min(100, (winning / max(1, losing)) * 30 + confluence_count * 10)` exactly
(the 2-decimal rounding is the identity on all reachable values), and when
they tie the signal is HOLD with confidence exactly 40. -/
theorem C7_confidence_formula (td : TechnicalData) (cd : ChartData) (p : ℚ) :
    ((accumulate td cd p).bull ≠ (accumulate td cd p).bear →
      (generate_signal td cd p).confidence =
        min 100
          (((max (accumulate td cd p).bull (accumulate td cd p).bear : ℕ) : ℚ) /
              ((max 1 (min (accumulate td cd p).bull (accumulate td cd p).bear) : ℕ) : ℚ) * 30 +
            (((generate_signal td cd p).confluence_count : ℕ) : ℚ) * 10)) ∧
    ((accumulate td cd p).bull = (accumulate td cd p).bear →
      (generate_signal td cd p).signal_type = "HOLD" ∧
      (generate_signal td cd p).confidence = 40) := by
  have hv := accumulate_votes td cd p
  have hconf : (generate_signal td cd p).confidence =
      roundQ 2 (decide_confidence (accumulate td cd p).bull
        (accumulate td cd p).bear (accumulate td cd p).confs.length) := rfl
  have hst : (generate_signal td cd p).signal_type =
      decide_signal_type (accumulate td cd p).bull (accumulate td cd p).bear := rfl
  have hcc : (generate_signal td cd p).confluence_count =
      (accumulate td cd p).confs.length := rfl
  constructor
  · intro hne
    rw [hconf, hcc]
    rcases lt_or_gt_of_ne hne with h | h
    · have hdc : decide_confidence (accumulate td cd p).bull
          (accumulate td cd p).bear (accumulate td cd p).confs.length =
          min 100 (((accumulate td cd p).bear : ℚ) /
            ((max 1 (accumulate td cd p).bull : ℕ) : ℚ) * 30 +
            ((accumulate td cd p).confs.length : ℚ) * 10) := by
        unfold decide_confidence
        rw [if_neg (by omega), if_pos h]
      rw [hdc, Nat.max_eq_right h.le, Nat.min_eq_left h.le]
      exact conf_round_exact (accumulate td cd p).bear (accumulate td cd p).bull
        (accumulate td cd p).confs.length h (by omega)
    · have hdc : decide_confidence (accumulate td cd p).bull
          (accumulate td cd p).bear (accumulate td cd p).confs.length =
          min 100 (((accumulate td cd p).bull : ℚ) /
            ((max 1 (accumulate td cd p).bear : ℕ) : ℚ) * 30 +
            ((accumulate td cd p).confs.length : ℚ) * 10) := by
        unfold decide_confidence
        rw [if_pos h]
      rw [hdc, Nat.max_eq_left h.le, Nat.min_eq_right h.le]
      exact conf_round_exact (accumulate td cd p).bull (accumulate td cd p).bear
        (accumulate td cd p).confs.length h (by omega)
  · intro heq
    constructor
    · rw [hst]
      unfold decide_signal_type
      rw [if_neg (by omega), if_neg (by omega)]
    · rw [hconf]
      unfold decide_confidence
      rw [if_neg (by omega), if_neg (by omega)]
      simpa using roundQ_intCast 2 40

/-- C7 witness: all-neutral inputs give a vote tie, so the generated signal
is HOLD with confidence exactly 40. -/
theorem C7_confidence_formula_witness :
    (generate_signal tdNeutral cdEmpty 100).signal_type = "HOLD" ∧
    (generate_signal tdNeutral cdEmpty 100).confidence = 40 :=
  (C7_confidence_formula tdNeutral cdEmpty 100).2 (by decide)

end TradeAI
